import Mathlib

/-!
Shallow embedding of the amazon-reviews-scraper core
(`src/parsers/review_extractor.py` and `src/parsers/utils_domain.py`).

Python strings are Lean `String`; Python `None` for an optional value is
`Option.none`.  `str.lower().strip()` is modelled over the character list.
BeautifulSoup documents are modelled as structures holding, for each CSS
selector the source queries, the text (or attribute) result that the query
would produce (`none` = element absent).  Python's `random` module is
modelled as an abstract deterministic state machine over a `Nat` state,
and the built-in `hash` as an abstract `Int`-valued function, both passed
in as parameters: within one process both are fixed deterministic
functions, which is what the seeding in `_generate_mock` relies on.
-/

/-- Python truthiness of an optional string: `None` and `""` are falsy. -/
def pyTruthyStr : Option String → Bool
  | none => false
  | some s => s ≠ ""

/-- Characters of a Python string after `.lower()` (per-character lowercase). -/
def pyLower (l : List Char) : List Char := l.map Char.toLower

/-- Drop leading whitespace, as Python `str.strip` does on the left. -/
def stripLeft : List Char → List Char
  | [] => []
  | c :: cs => if c.isWhitespace then stripLeft cs else c :: cs

/-- Python `str.strip()`: drop whitespace on both ends. -/
def pyStrip (l : List Char) : List Char :=
  ((stripLeft ((stripLeft l).reverse)).reverse)

/-- Model of `code.lower().strip()` from `DomainConfig.get_domain`. -/
def pyNormalize (s : String) : String :=
  ⟨pyStrip (pyLower s.data)⟩

/-- Python `"." in code` for the one-character needle used by the source. -/
def pyContainsDot (s : String) : Bool := s.data.contains '.'

/-- The fixed allow-list literal from `DomainConfig.get_domain`. -/
def knownSuffixes : List String :=
  ["com", "de", "fr", "it", "es", "nl", "co.uk", "com.au", "ca", "co.jp",
   "com.mx", "com.tr", "ae", "sg", "sa"]

/-- Structure `DomainConfig`: alias mapping plus default code (`dataclass` in the source,
dict modelled as an association list). -/
structure DomainConfig where
  domain_map : List (String × String)
  default_code : String := "com"
  deriving DecidableEq

/-- Function `DomainConfig.get_domain`: empty code replaced by the default, then
lowercased and stripped; pass-through when it contains "." or is a known
suffix; otherwise alias lookup with silent fallback to the default code. -/
def get_domain (cfg : DomainConfig) (code : String) : String :=
  let code1 := if code = "" then cfg.default_code else code
  let code2 := pyNormalize code1
  if pyContainsDot code2 || code2 ∈ knownSuffixes then code2
  else ((cfg.domain_map.lookup code2).getD cfg.default_code)

-- Helper lemmas for C5.

theorem stripLeft_mem_of_not_ws {c : Char} (hc : ¬ c.isWhitespace) :
    ∀ l : List Char, c ∈ l → c ∈ stripLeft l := by
  intro l hl
  induction l with
  | nil => cases hl
  | cons a as ih =>
    by_cases ha : a.isWhitespace
    · have hne : c ≠ a := fun h => hc (h ▸ ha)
      have : c ∈ as := by
        cases hl with
        | head => exact absurd rfl hne
        | tail _ h => exact h
      simpa [stripLeft, ha] using ih this
    · simpa [stripLeft, ha] using hl

theorem pyStrip_mem_of_not_ws {c : Char} (hc : ¬ c.isWhitespace)
    {l : List Char} (hl : c ∈ l) : c ∈ pyStrip l := by
  unfold pyStrip
  have h1 : c ∈ stripLeft l := stripLeft_mem_of_not_ws hc l hl
  have h2 : c ∈ (stripLeft l).reverse := by simpa using h1
  have h3 : c ∈ stripLeft ((stripLeft l).reverse) :=
    stripLeft_mem_of_not_ws hc _ h2
  simpa using h3

theorem pyNormalize_containsDot {s : String} (h : pyContainsDot s) :
    pyContainsDot (pyNormalize s) := by
  unfold pyContainsDot at *
  have hmem : '.' ∈ s.data := by simpa using h
  have hlow : '.' ∈ pyLower s.data := by
    unfold pyLower
    exact List.mem_map.mpr ⟨'.', hmem, by decide⟩
  have : '.' ∈ pyStrip (pyLower s.data) :=
    pyStrip_mem_of_not_ws (by decide) hlow
  simpa [pyNormalize] using this

theorem knownSuffixes_normalize_fixed :
    ∀ s ∈ knownSuffixes, pyNormalize s = s ∧ s ≠ "" := by decide

/-- Claim C5: Domain resolver: pass-through (as the normalized code) for codes
containing "." or in the allow-list; default fallback for short codes absent
from both the allow-list and the alias mapping; and the empty code resolves
exactly as the default code does. -/
theorem get_domain_spec (cfg : DomainConfig) (code : String) :
    ((pyContainsDot code ∨ code ∈ knownSuffixes) →
        get_domain cfg code = pyNormalize code)
    ∧ ((code ≠ "" → ¬ pyContainsDot (pyNormalize code) →
        pyNormalize code ∉ knownSuffixes →
        cfg.domain_map.lookup (pyNormalize code) = none →
        get_domain cfg code = cfg.default_code))
    ∧ get_domain cfg "" = get_domain cfg cfg.default_code := by
  refine ⟨?_, ?_, ?_⟩
  · rintro (h | h)
    · have hne : code ≠ "" := by
        intro he
        rw [he] at h
        exact absurd h (by decide)
      have hdot := pyNormalize_containsDot h
      simp [get_domain, hne, hdot]
    · have hfix := (knownSuffixes_normalize_fixed code h).1
      have hne := (knownSuffixes_normalize_fixed code h).2
      simp [get_domain, hne, hfix, h]
  · intro hne hdot hmem hlook
    simp [get_domain, hne, hdot, hmem, hlook]
  · by_cases hd : cfg.default_code = ""
    · simp [get_domain, hd]
    · simp [get_domain, hd]

/-- Witness for C5 at concrete inputs. -/
theorem get_domain_spec_witness :
    get_domain ⟨[("uk", "co.uk")], "com"⟩ " CO.UK " = "co.uk"
    ∧ get_domain ⟨[("uk", "co.uk")], "com"⟩ "zz" = "com"
    ∧ get_domain ⟨[("uk", "co.uk")], "com"⟩ "" =
        get_domain ⟨[("uk", "co.uk")], "com"⟩ "com" := by
  refine ⟨?_, ?_, ?_⟩
  · have h := (get_domain_spec ⟨[("uk", "co.uk")], "com"⟩ " CO.UK ").1
      (Or.inl (by decide))
    rw [h]; decide
  · exact (get_domain_spec ⟨[("uk", "co.uk")], "com"⟩ "zz").2.1
      (by decide) (by decide) (by decide) (by decide)
  · exact (get_domain_spec ⟨[("uk", "co.uk")], "com"⟩ "zz").2.2

/-! Section URL builder (`ReviewExtractor._build_reviews_url`) -/

/-- Filter set consumed by the URL builder and echoed into records
(`filters: Dict[str, Any]`, restricted to the three keys the source reads;
a `some ""` value is falsy in Python, matching `filters.get(...)` truthiness). -/
structure Filters where
  filterByStar : Option String
  filterByKeyword : Option String
  verifiedOnly : Bool
  deriving DecidableEq

/-- Python truthiness filter on an optional string value from the dict. -/
def truthyOptStr : Option String → Option String
  | none => none
  | some s => if s = "" then none else some s

/-- Uppercase hex digit for percent-encoding. -/
def hexDigit (n : Nat) : Char :=
  if n < 10 then Char.ofNat (48 + n) else Char.ofNat (55 + n)

/-- Model of `urllib.parse.quote_plus` on one UTF-8 byte. -/
def quotePlusByte (n : Nat) : String :=
  if (65 ≤ n && n ≤ 90) || (97 ≤ n && n ≤ 122) || (48 ≤ n && n ≤ 57)
      || n == 95 || n == 46 || n == 45 || n == 126 then
    ⟨[Char.ofNat n]⟩
  else if n == 32 then "+"
  else "%" ++ ⟨[hexDigit (n / 16), hexDigit (n % 16)]⟩

/-- Model of `urllib.parse.quote_plus` over the UTF-8 bytes of a string. -/
def quote_plus (s : String) : String :=
  String.join ((s.toUTF8.toList).map fun b => quotePlusByte b.toNat)

/-- Model of `urllib.parse.urlencode` over an insertion-ordered parameter dict. -/
def urlencode (params : List (String × String)) : String :=
  String.intercalate "&" (params.map fun kv => quote_plus kv.1 ++ "=" ++ quote_plus kv.2)

/-- The parameter dict built by `_build_reviews_url`, in insertion order. -/
def reviewParams (page : Nat) (sort_by : String) (filters : Filters) :
    List (String × String) :=
  [("pageNumber", toString page),
   ("sortBy", if sort_by = "recent" then "recent" else "helpful")]
  ++ (match truthyOptStr filters.filterByStar with
      | some v => [("filterByStar", v)]
      | none => [])
  ++ (match truthyOptStr filters.filterByKeyword with
      | some v => [("filterByKeyword", v)]
      | none => [])
  ++ (if filters.verifiedOnly then [("reviewerType", "avp_only_reviews")] else [])

/-- Function `ReviewExtractor._build_reviews_url`. -/
def build_reviews_url (cfg : DomainConfig) (asin domain_code : String)
    (page : Nat) (sort_by : String) (filters : Filters) : String :=
  let domain := get_domain cfg domain_code
  let base := "https://www.amazon." ++ domain ++ "/product-reviews/" ++ asin
  base ++ "/ref=cm_cr_arp_d_paging_btm_next_" ++ toString page ++ "?"
    ++ urlencode (reviewParams page sort_by filters)

/-- Claim C8: The URL builder is a pure function (equal inputs give equal output
strings), and the `sortBy` parameter it emits is exactly `"recent"` when
`sort_by = "recent"` and exactly `"helpful"` otherwise — never another string. -/
theorem build_reviews_url_spec (cfg : DomainConfig) (asin domain_code : String)
    (page : Nat) (sort_by : String) (filters : Filters) :
    (∀ cfg2 asin2 dc2 page2 sb2 f2, cfg = cfg2 → asin = asin2 →
        domain_code = dc2 → page = page2 → sort_by = sb2 → filters = f2 →
        build_reviews_url cfg asin domain_code page sort_by filters =
          build_reviews_url cfg2 asin2 dc2 page2 sb2 f2)
    ∧ (reviewParams page sort_by filters).lookup "sortBy" =
        some (if sort_by = "recent" then "recent" else "helpful")
    ∧ (∀ v, (reviewParams page sort_by filters).lookup "sortBy" = some v →
        v = "recent" ∨ v = "helpful") := by
  refine ⟨?_, ?_, ?_⟩
  · intro cfg2 asin2 dc2 page2 sb2 f2 h1 h2 h3 h4 h5 h6
    rw [h1, h2, h3, h4, h5, h6]
  · simp [reviewParams, List.lookup]
  · intro v hv
    by_cases hs : sort_by = "recent"
    · simp [reviewParams, List.lookup, hs] at hv
      exact Or.inl hv.symm
    · simp [reviewParams, List.lookup, hs] at hv
      exact Or.inr hv.symm

/-- Witness for C8 at concrete inputs. -/
theorem build_reviews_url_spec_witness :
    (reviewParams 1 "top" ⟨none, none, false⟩).lookup "sortBy" = some "helpful"
    ∧ ("helpful" = "recent" ∨ ("helpful" : String) = "helpful") := by
  have h := build_reviews_url_spec ⟨[], "com"⟩ "B000TEST1" "com" 1 "top"
    ⟨none, none, false⟩
  refine ⟨?_, ?_⟩
  · have := h.2.1
    simpa using this
  · exact h.2.2 "helpful" (by simpa using h.2.1)

/-! Section Page fetcher (`ReviewExtractor._http_get`) -/

/-- Outcome of one `requests.get` attempt: a response with a status code and
body text, or a raised transport-level exception. -/
inductive HttpOutcome where
  | resp (status : Nat) (text : String)
  | exc
  deriving DecidableEq

/-- Attempt numbers `range(1, max_retries + 1)`. -/
def attemptList (max_retries : Nat) : List Nat :=
  (List.range max_retries).map (· + 1)


/-- The retry loop of `_http_get` over the remaining attempt numbers, driven
by a deterministic outcome oracle.  `resp.text` is returned when
`resp.status_code == 200`; any other status or an exception falls through to
`time.sleep(0.5 * attempt)` and the next attempt.  Returns the result
together with the trace of sleep durations in seconds, which the source
executes after every unsuccessful attempt. -/
def httpAttempts (respond : Nat → HttpOutcome) : List Nat → Option String × List ℚ
  | [] => (none, [])
  | a :: rest =>
    match respond a with
    | .resp status t =>
      if status = 200 then (some t, [])
      else ((httpAttempts respond rest).1,
        ((a : ℚ) / 2) :: (httpAttempts respond rest).2)
    | .exc =>
      ((httpAttempts respond rest).1,
        ((a : ℚ) / 2) :: (httpAttempts respond rest).2)

/-- Function `ReviewExtractor._http_get`: up to `max_retries` attempts; text returned
only from a status-200 response; `None` after exhaustion (exceptions are
swallowed, never propagated). -/
def http_get (respond : Nat → HttpOutcome) (max_retries : Nat) :
    Option String × List ℚ :=
  httpAttempts respond (attemptList max_retries)

theorem httpAttempts_some {respond : Nat → HttpOutcome} :
    ∀ (l : List Nat) (t : String), (httpAttempts respond l).1 = some t →
      ∃ a ∈ l, respond a = .resp 200 t := by
  intro l
  induction l with
  | nil => intro t h; simp [httpAttempts] at h
  | cons a rest ih =>
    intro t h
    unfold httpAttempts at h
    cases hr : respond a with
    | resp status tx =>
      rw [hr] at h
      by_cases hst : status = 200
      · subst hst
        simp at h
        exact ⟨a, by simp, by rw [hr, h]⟩
      · simp [hst] at h
        obtain ⟨b, hb, hbr⟩ := ih t h
        exact ⟨b, by simp [hb], hbr⟩
    | exc =>
      rw [hr] at h
      simp at h
      obtain ⟨b, hb, hbr⟩ := ih t h
      exact ⟨b, by simp [hb], hbr⟩

theorem httpAttempts_all_fail {respond : Nat → HttpOutcome} :
    ∀ l : List Nat, (∀ a ∈ l, ∀ t, respond a ≠ .resp 200 t) →
      httpAttempts respond l = (none, l.map fun a => (a : ℚ) / 2) := by
  intro l
  induction l with
  | nil => intro _; rfl
  | cons a rest ih =>
    intro hall
    have htail : ∀ b ∈ rest, ∀ t, respond b ≠ .resp 200 t :=
      fun b hb => hall b (by simp [hb])
    have hrec := ih htail
    unfold httpAttempts
    cases hr : respond a with
    | resp status tx =>
      have hst : ¬ status = 200 := by
        intro he
        exact hall a (by simp) tx (by rw [hr, he])
      simp [hst, hrec]
    | exc => simp [hrec]

/-- Claim C3: Page fetcher: markup text is returned only when some attempt got
status 200 (a 200-class success); when every attempt is a network fault or a
non-200 status, after `max_retries` attempts the result is absent (no
exception escapes), with a linear backoff sleep of `0.5 × attempt_number`
seconds after each failed attempt. -/
theorem http_get_spec (respond : Nat → HttpOutcome) (max_retries : Nat) :
    (∀ t, (http_get respond max_retries).1 = some t →
        ∃ a ∈ attemptList max_retries, respond a = .resp 200 t)
    ∧ ((∀ a ∈ attemptList max_retries, ∀ t, respond a ≠ .resp 200 t) →
        http_get respond max_retries =
          (none, (attemptList max_retries).map fun a => (a : ℚ) / 2)) := by
  constructor
  · intro t h
    exact httpAttempts_some (attemptList max_retries) t h
  · intro hall
    exact httpAttempts_all_fail (attemptList max_retries) hall

/-- Witness for C3: a success on attempt 1 yields its body; all attempts
failing (here: exceptions) yields absence with sleeps 0.5s and 1.0s. -/
theorem http_get_spec_witness :
    (∃ a ∈ attemptList 1,
        (fun _ : Nat => HttpOutcome.resp 200 "ok") a = .resp 200 "ok")
    ∧ http_get (fun _ => HttpOutcome.exc) 2 = (none, [1 / 2, 1]) := by
  constructor
  · exact (http_get_spec (fun _ => HttpOutcome.resp 200 "ok") 1).1 "ok" rfl
  · have h := (http_get_spec (fun _ => HttpOutcome.exc) 2).2
      (by intro a _ t h; cases h)
    rw [h]
    norm_num [attemptList, List.range_succ]

/-! Section Markup extractor (`_parse_product_info`, `_parse_summary_info`,
`_parse_reviews_from_soup`) -/

/-- Value of a digit character. -/
def digitVal (c : Char) : Nat := c.toNat - 48

/-- Python `int` on a non-empty string of decimal digits. -/
def digitsToNat (ds : List Char) : Nat :=
  ds.foldl (fun acc c => acc * 10 + digitVal c) 0

/-- Model of `re.sub(r"[^\d]", "", s)`: keep only the digit characters. -/
def stripNonDigits (s : String) : List Char := s.data.filter Char.isDigit

/-- Model of `int(re.sub(r"[^\d]", "", s))` under `try/except`: `None` when no digit
remains (`int("")` raises), else the integer value. -/
def pyIntOfDigits (ds : List Char) : Option Nat :=
  if ds.isEmpty then none else some (digitsToNat ds)

/-- Model of `re.search(r"(\d+)", s)`: the first maximal run of digits, if any. -/
def firstDigitRun : List Char → Option (List Char)
  | [] => none
  | c :: cs =>
    if c.isDigit then some ((c :: cs).takeWhile Char.isDigit)
    else firstDigitRun cs

/-- Model of `re.search(r"(\d+)%", s)`: value of the first maximal digit run that is
immediately followed by a percent sign (a digit run not followed by `%`
cannot match starting at any of its positions, so the scan resumes after it). -/
def firstPercentRun : List Char → Option Nat
  | [] => none
  | c :: cs =>
    if c.isDigit then
      match (c :: cs).dropWhile Char.isDigit with
      | '%' :: _ => some (digitsToNat ((c :: cs).takeWhile Char.isDigit))
      | _ => firstPercentRun cs
    else firstPercentRun cs

/-- One `div[data-hook='review']` element, modelled by the results of the
selector queries `_parse_reviews_from_soup` performs on it: `none` means the
selected child element is absent, `some s` its (stripped) text, or for
`idAttr`/`imageSrcs`/`videoSrcs` the attribute value. -/
structure ReviewEl where
  idAttr : Option String
  titleText : Option String
  ratingText : Option String
  userText : Option String
  dateText : Option String
  bodyText : Option String
  helpfulText : Option String
  avpBadge : Bool
  vineBadge : Bool
  imageSrcs : List (Option String)
  videoSrcs : List (Option String)
  formatStripText : Option String
  deriving DecidableEq

/-- The per-review dict yielded by `_parse_reviews_from_soup`. -/
structure ReviewEntry where
  id : Option String
  title : Option String
  rating : Option String
  user : Option String
  date : Option String
  text : Option String
  helpful : Option Nat
  verified : Bool
  vine : Bool
  images : Option (List String)
  videos : Option (List String)
  variations : Option (List String)
  variationId : Option String
  deriving DecidableEq

/-- Keep the truthy attribute values (`if img.get("src")`): drops missing
attributes and empty strings, preserving document order. -/
def truthySrcs (l : List (Option String)) : List String :=
  l.filterMap truthyOptStr

/-- Python `lst or None`: `None` for the empty list, else the list itself. -/
def listOrNone (l : List String) : Option (List String) :=
  if l.isEmpty then none else some l

/-- The helpful-count extraction of `_parse_reviews_from_soup`: `None` when
the helpful-vote element is absent; else the first digit run's value, or 0
when the element's text holds no digits. -/
def parseHelpful (helpfulText : Option String) : Option Nat :=
  match helpfulText with
  | none => none
  | some t =>
    some (match firstDigitRun t.data with
      | some ds => digitsToNat ds
      | none => 0)

/-- The body of the `for rev in soup.select(...)` loop: one yielded dict. -/
def parseReviewEl (el : ReviewEl) : ReviewEntry :=
  { id := el.idAttr
    title := el.titleText
    rating := el.ratingText
    user := el.userText
    date := el.dateText
    text := el.bodyText
    helpful := parseHelpful el.helpfulText
    verified := el.avpBadge
    vine := el.vineBadge
    images := listOrNone (truthySrcs el.imageSrcs)
    videos := listOrNone (truthySrcs el.videoSrcs)
    variations := listOrNone (match el.formatStripText with
      | some t => [t]
      | none => [])
    variationId := none }

/-- One review-listing page, modelled by the results of the document-level
selector queries the three parse passes perform (`none` = element absent),
plus the list of review elements `soup.select("div[data-hook='review']")`. -/
structure PageDoc where
  productTitleText : Option String
  productLinkText : Option String
  ratingOutOfText : Option String
  totalReviewCountText : Option String
  fiveStarText : Option String
  fourStarText : Option String
  threeStarText : Option String
  twoStarText : Option String
  oneStarText : Option String
  reviewEls : List ReviewEl
  deriving DecidableEq

/-- Function `_parse_product_info`: header title, falling back to the product link
when the title is falsy (absent or empty). -/
def parse_product_info (d : PageDoc) : Option String :=
  let title := d.productTitleText
  if pyTruthyStr title then title
  else
    match d.productLinkText with
    | some t => some t
    | none => title

/-- Result dict of `_parse_summary_info` (the star distribution modelled as
an association list from label to percentage). -/
structure SummaryInfo where
  productRating : Option String
  countRatings : Option Int
  summary : Option (List (String × Nat))
  deriving DecidableEq

/-- One star level of the distribution loop: an entry only when the row
element exists and its text matches the `(\d+)%` pattern. -/
def starEntry (label : String) (txt : Option String) : List (String × Nat) :=
  match txt with
  | none => []
  | some t =>
    match firstPercentRun t.data with
    | some n => [(label, n)]
    | none => []

/-- Function `_parse_summary_info`: rating text verbatim, digits-only rating count
(nulled on parse failure), star distribution with `summary or None`. -/
def parse_summary_info (d : PageDoc) : SummaryInfo :=
  { productRating := d.ratingOutOfText
    countRatings :=
      d.totalReviewCountText.bind fun t =>
        (pyIntOfDigits (stripNonDigits t)).map Int.ofNat
    summary :=
      let pairs := starEntry "fiveStar" d.fiveStarText
        ++ starEntry "fourStar" d.fourStarText
        ++ starEntry "threeStar" d.threeStarText
        ++ starEntry "twoStar" d.twoStarText
        ++ starEntry "oneStar" d.oneStarText
      if pairs.isEmpty then none else some pairs }

/-- Model of `list(self._parse_reviews_from_soup(soup))`. -/
def parse_reviews_from_soup (d : PageDoc) : List ReviewEntry :=
  d.reviewEls.map parseReviewEl

theorem firstDigitRun_eq_none {l : List Char} (h : ∀ c ∈ l, ¬ c.isDigit) :
    firstDigitRun l = none := by
  induction l with
  | nil => rfl
  | cons c cs ih =>
    have hc := h c (by simp)
    have htail : ∀ x ∈ cs, ¬ x.isDigit := fun x hx => h x (by simp [hx])
    simp [firstDigitRun, hc, ih htail]

/-- Claim C4: Helpful count: `None` when the helpful-votes element is absent;
the value of the first run of digits in its text when one exists; `0` (not
`None`) when the element is present but its text holds no digit. -/
theorem parseHelpful_spec (el : ReviewEl) :
    (el.helpfulText = none → (parseReviewEl el).helpful = none)
    ∧ (∀ t, el.helpfulText = some t →
        (∀ ds, firstDigitRun t.data = some ds →
            (parseReviewEl el).helpful = some (digitsToNat ds))
        ∧ ((∀ c ∈ t.data, ¬ c.isDigit) →
            (parseReviewEl el).helpful = some 0)) := by
  constructor
  · intro h
    simp [parseReviewEl, parseHelpful, h]
  · intro t ht
    constructor
    · intro ds hds
      simp [parseReviewEl, parseHelpful, ht, hds]
    · intro hnd
      simp [parseReviewEl, parseHelpful, ht, firstDigitRun_eq_none hnd]

/-- Witness for C4: absent element, text with digits, digit-free text. -/
theorem parseHelpful_spec_witness :
    (parseReviewEl ⟨none, none, none, none, none, none, none, false, false,
        [], [], none⟩).helpful = none
    ∧ (parseReviewEl ⟨none, none, none, none, none, none,
        some "12 people found this helpful", false, false,
        [], [], none⟩).helpful = some 12
    ∧ (parseReviewEl ⟨none, none, none, none, none, none,
        some "One person found this helpful", false, false,
        [], [], none⟩).helpful = some 0 := by
  refine ⟨?_, ?_, ?_⟩
  · exact (parseHelpful_spec _).1 rfl
  · have h := ((parseHelpful_spec ⟨none, none, none, none, none, none,
        some "12 people found this helpful", false, false,
        [], [], none⟩).2 "12 people found this helpful" rfl).1
        ['1', '2'] (by decide)
    simpa using h
  · exact ((parseHelpful_spec _).2 "One person found this helpful" rfl).2
      (by decide)

/-- Claim C6: The markup extractor degrades instead of raising (all parse
functions here are total Lean functions): zero review elements give the
empty list; each absent element or attribute nulls just its field; a count
text without digits (such as "abc") gives a null count, not an error. -/
theorem extractor_degrades_spec (d : PageDoc) (el : ReviewEl) :
    (d.reviewEls = [] → parse_reviews_from_soup d = [])
    ∧ (d.ratingOutOfText = none → (parse_summary_info d).productRating = none)
    ∧ (d.totalReviewCountText = none → (parse_summary_info d).countRatings = none)
    ∧ (∀ t, d.totalReviewCountText = some t → (∀ c ∈ t.data, ¬ c.isDigit) →
        (parse_summary_info d).countRatings = none)
    ∧ (el.idAttr = none → (parseReviewEl el).id = none)
    ∧ (el.titleText = none → (parseReviewEl el).title = none)
    ∧ (el.ratingText = none → (parseReviewEl el).rating = none)
    ∧ (el.userText = none → (parseReviewEl el).user = none)
    ∧ (el.dateText = none → (parseReviewEl el).date = none)
    ∧ (el.bodyText = none → (parseReviewEl el).text = none)
    ∧ (el.helpfulText = none → (parseReviewEl el).helpful = none)
    ∧ ((∀ o ∈ el.imageSrcs, o = none) → (parseReviewEl el).images = none)
    ∧ ((∀ o ∈ el.videoSrcs, o = none) → (parseReviewEl el).videos = none)
    ∧ (el.formatStripText = none → (parseReviewEl el).variations = none) := by
  refine ⟨?_, ?_, ?_, ?_, ?_, ?_, ?_, ?_, ?_, ?_, ?_, ?_, ?_, ?_⟩
  · intro h; simp [parse_reviews_from_soup, h]
  · intro h; simp [parse_summary_info, h]
  · intro h; simp [parse_summary_info, h]
  · intro t ht hnd
    have hfil : stripNonDigits t = [] := by
      simp only [stripNonDigits]
      exact List.filter_eq_nil_iff.mpr (by simpa using hnd)
    simp [parse_summary_info, ht, hfil, pyIntOfDigits]
  · intro h; simp [parseReviewEl, h]
  · intro h; simp [parseReviewEl, h]
  · intro h; simp [parseReviewEl, h]
  · intro h; simp [parseReviewEl, h]
  · intro h; simp [parseReviewEl, h]
  · intro h; simp [parseReviewEl, h]
  · intro h; simp [parseReviewEl, parseHelpful, h]
  · intro h
    have : truthySrcs el.imageSrcs = [] := by
      simp only [truthySrcs]
      refine List.filterMap_eq_nil_iff.mpr ?_
      intro o ho
      rw [h o ho]; rfl
    simp [parseReviewEl, this, listOrNone]
  · intro h
    have : truthySrcs el.videoSrcs = [] := by
      simp only [truthySrcs]
      refine List.filterMap_eq_nil_iff.mpr ?_
      intro o ho
      rw [h o ho]; rfl
    simp [parseReviewEl, this, listOrNone]
  · intro h; simp [parseReviewEl, h, listOrNone]

/-- Witness for C6: an entirely empty document and element, plus the "abc"
malformed count. -/
theorem extractor_degrades_spec_witness :
    parse_reviews_from_soup
        ⟨none, none, none, some "abc", none, none, none, none, none, []⟩ = []
    ∧ (parse_summary_info
        ⟨none, none, none, some "abc", none, none, none, none, none, []⟩).countRatings
        = none := by
  constructor
  · exact (extractor_degrades_spec
      ⟨none, none, none, some "abc", none, none, none, none, none, []⟩
      ⟨none, none, none, none, none, none, none, false, false, [], [], none⟩).1 rfl
  · exact (extractor_degrades_spec
      ⟨none, none, none, some "abc", none, none, none, none, none, []⟩
      ⟨none, none, none, none, none, none, none, false, false, [], [], none⟩).2.2.2.1
      "abc" rfl (by decide)

/-! Section Record assembly and the live fetch loop (`fetch_reviews`) -/

/-- The `ReviewRecord` dataclass. -/
structure ReviewRecord where
  statusCode : Nat
  statusMessage : String
  asin : String
  productTitle : Option String
  currentPage : Nat
  sortStrategy : String
  countReviews : Nat
  domainCode : String
  filters : Filters
  countRatings : Option Int
  productRating : Option String
  reviewSummary : Option (List (String × Nat))
  reviewId : Option String
  text : Option String
  date : Option String
  rating : Option String
  title : Option String
  userName : Option String
  numberOfHelpful : Option Nat
  variationId : Option String
  imageUrlList : Option (List String)
  videoUrlList : Option (List String)
  variationList : Option (List String)
  verified : Option Bool
  vine : Option Bool
  deriving DecidableEq

/-- The `ReviewRecord(...)` construction inside the live page loop, merging
the frozen page-level info with one parsed review entry (`n` is
`len(page_reviews)` for the entry's page). -/
def assembleRecord (asin domain_code sort_by : String) (filters : Filters)
    (page : Nat) (n : Nat) (pinfo : Option String) (sinfo : SummaryInfo)
    (r : ReviewEntry) : ReviewRecord :=
  { statusCode := 200
    statusMessage := "FOUND"
    asin := asin
    productTitle := pinfo
    currentPage := page
    sortStrategy := sort_by
    countReviews := n
    domainCode := domain_code
    filters := filters
    countRatings := sinfo.countRatings
    productRating := sinfo.productRating
    reviewSummary := sinfo.summary
    reviewId := r.id
    text := r.text
    date := r.date
    rating := r.rating
    title := r.title
    userName := r.user
    numberOfHelpful := r.helpful
    variationId := r.variationId
    imageUrlList := r.images
    videoUrlList := r.videos
    variationList := r.variations
    verified := some r.verified
    vine := some r.vine }

/-- Page numbers `range(1, max_pages + 1)` (empty when `max_pages <= 0`). -/
def pageList (max_pages : Int) : List Nat :=
  (List.range max_pages.toNat).map (· + 1)

/-- The page loop of `fetch_reviews` in live mode: the oracle `pages` maps a
page number to the parsed document its fetched HTML yields, or `none` when
`_http_get` returned no markup (truthiness test `if not html`), which breaks
the loop.  `pinfo`/`sinfo` carry `product_info`/`summary_info`, parsed only
when still `None` (both parse functions always return a truthy dict, so they
freeze at the first processed page). -/
def fetchPages (pages : Nat → Option PageDoc) (asin domain_code sort_by : String)
    (filters : Filters) :
    List Nat → Option (Option String) → Option SummaryInfo → List ReviewRecord
  | [], _, _ => []
  | p :: ps, pinfo, sinfo =>
    match pages p with
    | none => []
    | some doc =>
      let pinfo2 := pinfo.getD (parse_product_info doc)
      let sinfo2 := sinfo.getD (parse_summary_info doc)
      let entries := parse_reviews_from_soup doc
      entries.map
          (assembleRecord asin domain_code sort_by filters p entries.length
            pinfo2 sinfo2)
        ++ fetchPages pages asin domain_code sort_by filters ps
            (some pinfo2) (some sinfo2)

/-- Function `fetch_reviews` in live mode (`mock=False`). -/
def fetch_reviews_live (pages : Nat → Option PageDoc)
    (asin domain_code : String) (max_pages : Int) (filters : Filters)
    (sort_by : String) : List ReviewRecord :=
  fetchPages pages asin domain_code sort_by filters (pageList max_pages)
    none none

theorem fetchPages_invariant (pages : Nat → Option PageDoc)
    (asin domain_code sort_by : String) (filters : Filters) :
    ∀ (ps : List Nat) (pinfo : Option String) (sinfo : SummaryInfo)
      (r : ReviewRecord),
      r ∈ fetchPages pages asin domain_code sort_by filters ps
          (some pinfo) (some sinfo) →
      r.productTitle = pinfo ∧ r.countRatings = sinfo.countRatings
        ∧ r.productRating = sinfo.productRating
        ∧ r.reviewSummary = sinfo.summary
        ∧ ∃ doc, pages r.currentPage = some doc
            ∧ r.countReviews = (parse_reviews_from_soup doc).length := by
  intro ps
  induction ps with
  | nil => intro pinfo sinfo r hr; simp [fetchPages] at hr
  | cons p rest ih =>
    intro pinfo sinfo r hr
    unfold fetchPages at hr
    cases hp : pages p with
    | none => rw [hp] at hr; simp at hr
    | some doc =>
      rw [hp] at hr
      simp only [Option.getD_some, List.mem_append, List.mem_map] at hr
      cases hr with
      | inl hhead =>
        obtain ⟨e, _, he⟩ := hhead
        subst he
        refine ⟨rfl, rfl, rfl, rfl, doc, ?_, rfl⟩
        simpa [assembleRecord] using hp
      | inr htail => exact ih pinfo sinfo r htail

/-- Claim C1: Live mode: every record carries `countReviews` equal to the
number of review entries parsed from its own page, and the page-level fields
of every record of the whole fetch sequence are those parsed from page 1,
the first (and only) page at which `product_info`/`summary_info` are parsed. -/
theorem fetch_reviews_live_page_fields (pages : Nat → Option PageDoc)
    (asin domain_code : String) (max_pages : Int) (filters : Filters)
    (sort_by : String) (doc1 : PageDoc) (h1 : pages 1 = some doc1)
    (r : ReviewRecord)
    (hr : r ∈ fetch_reviews_live pages asin domain_code max_pages filters sort_by) :
    r.productTitle = parse_product_info doc1
    ∧ r.countRatings = (parse_summary_info doc1).countRatings
    ∧ r.productRating = (parse_summary_info doc1).productRating
    ∧ r.reviewSummary = (parse_summary_info doc1).summary
    ∧ ∃ doc, pages r.currentPage = some doc
        ∧ r.countReviews = (parse_reviews_from_soup doc).length := by
  unfold fetch_reviews_live at hr
  cases hn : max_pages.toNat with
  | zero => rw [pageList, hn] at hr; simp [fetchPages] at hr
  | succ k =>
    obtain ⟨rest, hpl⟩ : ∃ rest, pageList max_pages = 1 :: rest := by
      rw [pageList, hn, List.range_succ_eq_map]
      exact ⟨_, rfl⟩
    rw [hpl] at hr
    unfold fetchPages at hr
    rw [h1] at hr
    simp only [Option.getD_none, List.mem_append, List.mem_map] at hr
    cases hr with
    | inl hhead =>
      obtain ⟨e, _, he⟩ := hhead
      subst he
      exact ⟨rfl, rfl, rfl, rfl, doc1, by simpa [assembleRecord] using h1, rfl⟩
    | inr htail =>
      exact fetchPages_invariant pages asin domain_code sort_by filters rest
        (parse_product_info doc1) (parse_summary_info doc1) r htail

/-- Concrete fixtures: one live page at page 1 holding two review elements. -/
def elW1 : ReviewEl :=
  ⟨some "R1A", some "Nice", some "5.0 out of 5 stars", some "Alex",
   some "Reviewed on 1 May 2024", some "Good item", some "3 people liked it",
   true, false, [some "img1"], [], some "Color: Red"⟩

def elW2 : ReviewEl :=
  ⟨some "R2B", none, none, none, none, none, none, false, true,
   [], [none], none⟩

def docW : PageDoc :=
  ⟨some "Product W", none, some "4.5 out of 5", some "1,234 global ratings",
   some "70%", none, none, none, some "5%", [elW1, elW2]⟩

def pagesW : Nat → Option PageDoc := fun p => if p = 1 then some docW else none

def filtersW : Filters := ⟨none, none, false⟩

/-- The first record the live loop assembles from `docW`. -/
def recW : ReviewRecord :=
  assembleRecord "ASINW" "com" "recent" filtersW 1 2
    (parse_product_info docW) (parse_summary_info docW) (parseReviewEl elW1)

/-- Witness for C1 on the concrete one-page run. -/
theorem fetch_reviews_live_page_fields_witness :
    recW.productTitle = parse_product_info docW
    ∧ recW.countRatings = (parse_summary_info docW).countRatings
    ∧ recW.productRating = (parse_summary_info docW).productRating
    ∧ recW.reviewSummary = (parse_summary_info docW).summary
    ∧ ∃ doc, pagesW recW.currentPage = some doc
        ∧ recW.countReviews = (parse_reviews_from_soup doc).length :=
  fetch_reviews_live_page_fields pagesW "ASINW" "com" 2 filtersW "recent"
    docW rfl recW (by decide)

/-! Section Mock generator (`ReviewExtractor._generate_mock`) -/

/-- Abstract model of the `random` module: a deterministic state machine over
a `Nat` state.  `seedFn` is `random.seed`, `randint lo hi` one bounded draw,
`uniformRating` the string `f-string` of `round(random.uniform(3.8, 4.9), 1)`,
and `choiceIx` the index drawn by `random.choice` from an `n`-element list.
Within one process these are fixed deterministic functions. -/
structure PyRandom where
  seedFn : Nat → Nat
  randint : Nat → Nat → Nat → Nat × Nat
  uniformRating : Nat → String × Nat
  choiceIx : Nat → Nat → Nat × Nat

/-- Model of `random.choice(xs)`: draw an index, return that element. -/
def pyChoice {α : Type} [Inhabited α] (R : PyRandom) (s : Nat) (xs : List α) :
    α × Nat :=
  let r := R.choiceIx s xs.length
  (xs.getD (r.1 % xs.length) default, r.2)

/-- One synthetic record of the inner `for i in range(page_size)` loop, with
the draws in the source's evaluation order (review id, stars, user name,
helpful count, variation choice, verified choice). -/
def mockReview (R : PyRandom) (nowStr asin domain_code sort_by : String)
    (filters : Filters) (product_title product_rating : String)
    (summary : List (String × Nat)) (total : Int) (page : Nat)
    (page_size : Nat) (s : Nat) : ReviewRecord × Nat :=
  let r1 := R.randint (10 ^ 12) (10 ^ 13 - 1) s
  let rid := "R" ++ toString r1.1
  let r2 := pyChoice R r1.2 [5, 4, 3, 2, 1]
  let stars := r2.1
  let r3 := pyChoice R r2.2 ["Alex", "Jordan", "Taylor", "Sam", "Casey", "Riley"]
  let r4 := R.randint 0 25 r3.2
  let r5 := pyChoice R r4.2 ["Color: Black", "Size: Large", "Style: Single"]
  let r6 := pyChoice R r5.2 [true, false, true]
  ({ statusCode := 200
     statusMessage := "FOUND"
     asin := asin
     productTitle := some product_title
     currentPage := page
     sortStrategy := sort_by
     countReviews := page_size
     domainCode := domain_code
     filters := filters
     countRatings := some total
     productRating := some product_rating
     reviewSummary := some summary
     reviewId := some rid
     text := some ("This is a mock review text " ++ rid ++ " for ASIN "
       ++ asin ++ ". Works well.")
     date := some nowStr
     rating := some (toString stars ++ ".0 out of 5 stars")
     title := some ("Great product (" ++ toString stars ++ "★)")
     userName := some r3.1
     numberOfHelpful := some r4.1
     variationId := some asin
     imageUrlList := none
     videoUrlList := none
     variationList := some [r5.1]
     verified := some r6.1
     vine := some false }, r6.2)

/-- The inner loop `for i in range(page_size)`, threading the random state. -/
def mockReviews (R : PyRandom) (nowStr asin domain_code sort_by : String)
    (filters : Filters) (product_title product_rating : String)
    (summary : List (String × Nat)) (total : Int) (page : Nat)
    (page_size : Nat) : Nat → Nat → List ReviewRecord × Nat
  | 0, s => ([], s)
  | n + 1, s =>
    let r := mockReview R nowStr asin domain_code sort_by filters
      product_title product_rating summary total page page_size s
    let rest := mockReviews R nowStr asin domain_code sort_by filters
      product_title product_rating summary total page page_size n r.2
    (r.1 :: rest.1, rest.2)

/-- One iteration of `for page in range(1, max_pages + 1)`: draw
`page_size = randint(5, 12)` and emit that many records. -/
def mockPage (R : PyRandom) (nowStr asin domain_code sort_by : String)
    (filters : Filters) (product_title product_rating : String)
    (summary : List (String × Nat)) (total : Int) (page : Nat) (s : Nat) :
    List ReviewRecord × Nat :=
  let ps := R.randint 5 12 s
  mockReviews R nowStr asin domain_code sort_by filters product_title
    product_rating summary total page ps.1 ps.1 ps.2

/-- The page loop of `_generate_mock`. -/
def mockPages (R : PyRandom) (nowStr asin domain_code sort_by : String)
    (filters : Filters) (product_title product_rating : String)
    (summary : List (String × Nat)) (total : Int) :
    List Nat → Nat → List ReviewRecord × Nat
  | [], s => ([], s)
  | p :: rest, s =>
    let h := mockPage R nowStr asin domain_code sort_by filters product_title
      product_rating summary total p s
    let t := mockPages R nowStr asin domain_code sort_by filters product_title
      product_rating summary total rest h.2
    (h.1 ++ t.1, t.2)

/-- Function `ReviewExtractor._generate_mock`: seed from
`hash((asin, domain_code)) & 0xFFFFFFFF` (hash abstract as `hashPair`; the
mask is `mod 2^32`), draw the shared product-level values, then the page
loop.  `nowStr` stands for `datetime.utcnow().strftime(...)`, the only place
wall-clock time enters. -/
def generate_mock (R : PyRandom) (hashPair : String → String → Int)
    (nowStr : String) (asin domain_code : String) (max_pages : Int)
    (filters : Filters) (sort_by : String) : List ReviewRecord :=
  let s0 := R.seedFn ((hashPair asin domain_code % (4294967296 : Int)).toNat)
  let t1 := R.randint 5 15 s0
  let total : Int := (t1.1 : Int) * max_pages
  let product_title := "Mock Product for " ++ asin
  let u := R.uniformRating t1.2
  let product_rating := u.1 ++ " out of 5"
  let p5 := R.randint 50 90 u.2
  let p4 := R.randint 5 30 p5.2
  let p3 := R.randint 1 15 p4.2
  let p2 := R.randint 0 5 p3.2
  let p1 := R.randint 0 5 p2.2
  let summary := [("fiveStar", p5.1), ("fourStar", p4.1), ("threeStar", p3.1),
    ("twoStar", p2.1), ("oneStar", p1.1)]
  (mockPages R nowStr asin domain_code sort_by filters product_title
    product_rating summary total (pageList max_pages) p1.2).1

/-- Function `ReviewExtractor.fetch_reviews`: mock dispatch, else the live page loop. -/
def fetch_reviews (pages : Nat → Option PageDoc) (R : PyRandom)
    (hashPair : String → String → Int) (nowStr : String)
    (asin domain_code : String) (max_pages : Int) (filters : Filters)
    (sort_by : String) (mock : Bool) : List ReviewRecord :=
  if mock then
    generate_mock R hashPair nowStr asin domain_code max_pages filters sort_by
  else
    fetch_reviews_live pages asin domain_code max_pages filters sort_by

/-- Set the `date` field to `None`, leaving every other field unchanged. -/
def eraseDate (r : ReviewRecord) : ReviewRecord := { r with date := none }

theorem mockReviews_eraseDate (R : PyRandom)
    (now1 now2 asin domain_code sort_by : String) (filters : Filters)
    (pt pr : String) (sm : List (String × Nat)) (tot : Int)
    (pg psz : Nat) :
    ∀ (n s : Nat),
      (mockReviews R now1 asin domain_code sort_by filters pt pr sm tot pg psz
          n s).1.map eraseDate
        = (mockReviews R now2 asin domain_code sort_by filters pt pr sm tot pg
          psz n s).1.map eraseDate
      ∧ (mockReviews R now1 asin domain_code sort_by filters pt pr sm tot pg
          psz n s).2
        = (mockReviews R now2 asin domain_code sort_by filters pt pr sm tot pg
          psz n s).2 := by
  intro n
  induction n with
  | zero => intro s; exact ⟨rfl, rfl⟩
  | succ k ih =>
    intro s
    have hstate : (mockReview R now1 asin domain_code sort_by filters pt pr sm
        tot pg psz s).2 = (mockReview R now2 asin domain_code sort_by filters
        pt pr sm tot pg psz s).2 := rfl
    have hrec : eraseDate (mockReview R now1 asin domain_code sort_by filters
        pt pr sm tot pg psz s).1 = eraseDate (mockReview R now2 asin
        domain_code sort_by filters pt pr sm tot pg psz s).1 := rfl
    constructor
    · simp only [mockReviews, List.map_cons]
      rw [hrec, hstate]
      exact congrArg (List.cons _) (ih _).1
    · simp only [mockReviews]
      rw [hstate]
      exact (ih _).2

theorem mockPages_eraseDate (R : PyRandom)
    (now1 now2 asin domain_code sort_by : String) (filters : Filters)
    (pt pr : String) (sm : List (String × Nat)) (tot : Int) :
    ∀ (ps : List Nat) (s : Nat),
      (mockPages R now1 asin domain_code sort_by filters pt pr sm tot
          ps s).1.map eraseDate
        = (mockPages R now2 asin domain_code sort_by filters pt pr sm tot
          ps s).1.map eraseDate
      ∧ (mockPages R now1 asin domain_code sort_by filters pt pr sm tot ps s).2
        = (mockPages R now2 asin domain_code sort_by filters pt pr sm tot
          ps s).2 := by
  intro ps
  induction ps with
  | nil => intro s; exact ⟨rfl, rfl⟩
  | cons p rest ih =>
    intro s
    have hpage := mockReviews_eraseDate R now1 now2 asin domain_code sort_by
      filters pt pr sm tot p (R.randint 5 12 s).1 (R.randint 5 12 s).1
      (R.randint 5 12 s).2
    have hmap : (mockPage R now1 asin domain_code sort_by filters pt pr sm tot
        p s).1.map eraseDate = (mockPage R now2 asin domain_code sort_by
        filters pt pr sm tot p s).1.map eraseDate := hpage.1
    have hps : (mockPage R now1 asin domain_code sort_by filters pt pr sm tot
        p s).2 = (mockPage R now2 asin domain_code sort_by filters pt pr sm
        tot p s).2 := hpage.2
    constructor
    · simp only [mockPages, List.map_append]
      rw [hmap, hps]
      exact congrArg (_ ++ ·) (ih _).1
    · simp only [mockPages]
      rw [hps]
      exact (ih _).2

/-- Claim C2: The mock generator is deterministic in everything but the `date`
field: with the process-fixed `hash` and `random` models held equal, two
generations at different wall-clock times agree record-for-record once
`date` is erased — time influences the output only through `date`. -/
theorem generate_mock_time_independent (R : PyRandom)
    (hashPair : String → String → Int) (now1 now2 : String)
    (asin domain_code : String) (max_pages : Int) (filters : Filters)
    (sort_by : String) :
    (generate_mock R hashPair now1 asin domain_code max_pages filters
        sort_by).map eraseDate
      = (generate_mock R hashPair now2 asin domain_code max_pages filters
        sort_by).map eraseDate := by
  unfold generate_mock
  exact (mockPages_eraseDate R now1 now2 asin domain_code sort_by filters _ _
    _ _ (pageList max_pages) _).1

/-- A multi-valued field is well-formed: absent, or a non-empty sequence. -/
def neOrNoneB : Option (List String) → Bool
  | none => true
  | some l => !l.isEmpty

theorem neOrNoneB_listOrNone (l : List String) :
    neOrNoneB (listOrNone l) = true := by
  cases l <;> simp [listOrNone, neOrNoneB]

theorem parse_entry_multivalue (doc : PageDoc) :
    ∀ e ∈ parse_reviews_from_soup doc,
      neOrNoneB e.images = true ∧ neOrNoneB e.videos = true
        ∧ neOrNoneB e.variations = true := by
  intro e he
  obtain ⟨el, _, rfl⟩ := List.mem_map.mp
    (by simpa [parse_reviews_from_soup] using he)
  exact ⟨neOrNoneB_listOrNone _, neOrNoneB_listOrNone _, neOrNoneB_listOrNone _⟩

theorem fetchPages_multivalue (pages : Nat → Option PageDoc)
    (asin domain_code sort_by : String) (filters : Filters) :
    ∀ (ps : List Nat) (pinfo : Option (Option String))
      (sinfo : Option SummaryInfo) (r : ReviewRecord),
      r ∈ fetchPages pages asin domain_code sort_by filters ps pinfo sinfo →
      neOrNoneB r.imageUrlList = true ∧ neOrNoneB r.videoUrlList = true
        ∧ neOrNoneB r.variationList = true := by
  intro ps
  induction ps with
  | nil => intro pinfo sinfo r hr; simp [fetchPages] at hr
  | cons p rest ih =>
    intro pinfo sinfo r hr
    unfold fetchPages at hr
    cases hp : pages p with
    | none => rw [hp] at hr; simp at hr
    | some doc =>
      rw [hp] at hr
      simp only [List.mem_append, List.mem_map] at hr
      cases hr with
      | inl hhead =>
        obtain ⟨e, he_mem, he⟩ := hhead
        have hmv := parse_entry_multivalue doc e he_mem
        subst he
        simpa [assembleRecord] using hmv
      | inr htail => exact ih _ _ r htail

/-- The structural invariants every synthetic record of `_generate_mock`
satisfies by construction. -/
def mockInvariant (asin : String) (r : ReviewRecord) : Prop :=
  r.vine = some false ∧ r.variationId = some asin ∧ r.imageUrlList = none
    ∧ r.videoUrlList = none ∧ ∃ x, r.variationList = some [x]

theorem mockReview_invariant (R : PyRandom)
    (nowStr asin domain_code sort_by : String) (filters : Filters)
    (pt pr : String) (sm : List (String × Nat)) (tot : Int)
    (pg psz s : Nat) :
    mockInvariant asin (mockReview R nowStr asin domain_code sort_by filters
      pt pr sm tot pg psz s).1 :=
  ⟨rfl, rfl, rfl, rfl, _, rfl⟩

theorem mockReviews_invariant (R : PyRandom)
    (nowStr asin domain_code sort_by : String) (filters : Filters)
    (pt pr : String) (sm : List (String × Nat)) (tot : Int) (pg psz : Nat) :
    ∀ (n s : Nat) (r : ReviewRecord),
      r ∈ (mockReviews R nowStr asin domain_code sort_by filters pt pr sm tot
        pg psz n s).1 → mockInvariant asin r := by
  intro n
  induction n with
  | zero => intro s r hr; simp [mockReviews] at hr
  | succ k ih =>
    intro s r hr
    simp only [mockReviews, List.mem_cons] at hr
    cases hr with
    | inl h =>
      subst h
      exact mockReview_invariant R nowStr asin domain_code sort_by filters
        pt pr sm tot pg psz s
    | inr h => exact ih _ r h

theorem mockPages_invariant (R : PyRandom)
    (nowStr asin domain_code sort_by : String) (filters : Filters)
    (pt pr : String) (sm : List (String × Nat)) (tot : Int) :
    ∀ (ps : List Nat) (s : Nat) (r : ReviewRecord),
      r ∈ (mockPages R nowStr asin domain_code sort_by filters pt pr sm tot
        ps s).1 → mockInvariant asin r := by
  intro ps
  induction ps with
  | nil => intro s r hr; simp [mockPages] at hr
  | cons p rest ih =>
    intro s r hr
    simp only [mockPages, List.mem_append] at hr
    cases hr with
    | inl h =>
      exact mockReviews_invariant R nowStr asin domain_code sort_by filters
        pt pr sm tot p _ _ _ r h
    | inr h => exact ih _ r h

theorem generate_mock_invariant (R : PyRandom)
    (hashPair : String → String → Int) (nowStr : String)
    (asin domain_code : String) (max_pages : Int) (filters : Filters)
    (sort_by : String) (r : ReviewRecord)
    (hr : r ∈ generate_mock R hashPair nowStr asin domain_code max_pages
      filters sort_by) : mockInvariant asin r := by
  unfold generate_mock at hr
  exact mockPages_invariant R nowStr asin domain_code sort_by filters _ _ _ _
    (pageList max_pages) _ r hr

/-- Claim C7: In live extraction and in mock generation alike, each of
`imageUrlList`, `videoUrlList`, `variationList` is `None` or a non-empty
sequence — never the empty sequence. -/
theorem multivalue_fields_spec (pages : Nat → Option PageDoc) (R : PyRandom)
    (hashPair : String → String → Int) (nowStr : String)
    (asin domain_code : String) (max_pages : Int) (filters : Filters)
    (sort_by : String) :
    (∀ r ∈ fetch_reviews_live pages asin domain_code max_pages filters sort_by,
        neOrNoneB r.imageUrlList = true ∧ neOrNoneB r.videoUrlList = true
          ∧ neOrNoneB r.variationList = true)
    ∧ (∀ r ∈ generate_mock R hashPair nowStr asin domain_code max_pages
          filters sort_by,
        neOrNoneB r.imageUrlList = true ∧ neOrNoneB r.videoUrlList = true
          ∧ neOrNoneB r.variationList = true) := by
  constructor
  · intro r hr
    exact fetchPages_multivalue pages asin domain_code sort_by filters
      (pageList max_pages) none none r hr
  · intro r hr
    obtain ⟨_, _, himg, hvid, x, hvar⟩ :=
      generate_mock_invariant R hashPair nowStr asin domain_code max_pages
        filters sort_by r hr
    exact ⟨by rw [himg]; rfl, by rw [hvid]; rfl, by rw [hvar]; rfl⟩

/-- Deterministic stand-ins for the process-wide `random` and `hash`
functions, used to evaluate the mock generator on concrete inputs. -/
def Rw : PyRandom :=
  ⟨fun s => s, fun lo _ s => (lo, s + 1), fun s => ("4.2", s + 1),
   fun s _ => (0, s + 1)⟩

def hashW : String → String → Int := fun _ _ => 7

def mockRunW : List ReviewRecord :=
  generate_mock Rw hashW "Reviewed on 1 May 2024" "ASINW" "com" 1 filtersW
    "recent"

def recDummy : ReviewRecord :=
  ⟨200, "", "", none, 0, "", 0, "", filtersW, none, none, none, none, none,
   none, none, none, none, none, none, none, none, none, none, none⟩

def recMW : ReviewRecord := mockRunW.headD recDummy

/-- Witness for C7: the first live record of the `docW` run and the first
mock record of the `mockRunW` run. -/
theorem multivalue_fields_spec_witness :
    (neOrNoneB recW.imageUrlList = true ∧ neOrNoneB recW.videoUrlList = true
      ∧ neOrNoneB recW.variationList = true)
    ∧ (neOrNoneB recMW.imageUrlList = true
      ∧ neOrNoneB recMW.videoUrlList = true
      ∧ neOrNoneB recMW.variationList = true) :=
  ⟨(multivalue_fields_spec pagesW Rw hashW "Reviewed on 1 May 2024" "ASINW"
      "com" 2 filtersW "recent").1 recW (by decide),
   (multivalue_fields_spec pagesW Rw hashW "Reviewed on 1 May 2024" "ASINW"
      "com" 1 filtersW "recent").2 recMW (by decide)⟩

/-- Claim C10: Every synthetic record has `vine = False`, `variationId` equal
to the input asin, and a `variationList` of exactly one element. -/
theorem generate_mock_fixed_fields (R : PyRandom)
    (hashPair : String → String → Int) (nowStr : String)
    (asin domain_code : String) (max_pages : Int) (filters : Filters)
    (sort_by : String) (r : ReviewRecord)
    (hr : r ∈ generate_mock R hashPair nowStr asin domain_code max_pages
      filters sort_by) :
    r.vine = some false ∧ r.variationId = some asin
      ∧ ∃ x, r.variationList = some [x] := by
  obtain ⟨hv, hid, _, _, x, hvar⟩ :=
    generate_mock_invariant R hashPair nowStr asin domain_code max_pages
      filters sort_by r hr
  exact ⟨hv, hid, x, hvar⟩

/-- Witness for C10 on the concrete mock run. -/
theorem generate_mock_fixed_fields_witness :
    recMW.vine = some false ∧ recMW.variationId = some "ASINW"
      ∧ ∃ x, recMW.variationList = some [x] :=
  generate_mock_fixed_fields Rw hashW "Reviewed on 1 May 2024" "ASINW" "com"
    1 filtersW "recent" recMW (by decide)

/-- Claim C9: `fetch_reviews` with `max_pages <= 0` returns the empty sequence
in both live and mock mode; the page range `range(1, max_pages + 1)` is
empty, so no page is ever fetched. -/
theorem fetch_reviews_nonpositive (pages : Nat → Option PageDoc)
    (R : PyRandom) (hashPair : String → String → Int) (nowStr : String)
    (asin domain_code : String) (max_pages : Int) (filters : Filters)
    (sort_by : String) (mock : Bool) (h : max_pages ≤ 0) :
    fetch_reviews pages R hashPair nowStr asin domain_code max_pages filters
        sort_by mock = []
      ∧ pageList max_pages = [] := by
  have hpl : pageList max_pages = [] := by
    rw [pageList, Int.toNat_of_nonpos h]; rfl
  refine ⟨?_, hpl⟩
  cases mock with
  | false => simp [fetch_reviews, fetch_reviews_live, hpl, fetchPages]
  | true => simp [fetch_reviews, generate_mock, hpl, mockPages]

/-- Witness for C9 at `max_pages = 0` (mock) and `max_pages = -1` (live). -/
theorem fetch_reviews_nonpositive_witness :
    fetch_reviews pagesW Rw hashW "now" "A" "com" 0 filtersW "recent" true = []
    ∧ fetch_reviews pagesW Rw hashW "now" "A" "com" (-1) filtersW "recent"
        false = []
    ∧ pageList 0 = [] :=
  ⟨(fetch_reviews_nonpositive pagesW Rw hashW "now" "A" "com" 0 filtersW
      "recent" true (by decide)).1,
   (fetch_reviews_nonpositive pagesW Rw hashW "now" "A" "com" (-1) filtersW
      "recent" false (by decide)).1,
   (fetch_reviews_nonpositive pagesW Rw hashW "now" "A" "com" 0 filtersW
      "recent" true (by decide)).2⟩
